import Mathlib

/-!
Shallow embedding of the TrashTrack "report waste" page
(src/Binaries/trashtrack/app/report/page.tsx).

The page is a React component; its relevant logic consists of event
handlers mutating a set of `useState` cells.  We embed the collection of
cells as one `PageState` record and each handler as a pure transition
function.  External effects (the generative-AI round trip, the report
store, the user store, local storage, the `FileReader`) are parameters of
the transitions: a handler receives the outcome of each external call it
performs, and returns the next state together with a record of the calls
it made and the toast it showed.

JavaScript dynamic values produced by `JSON.parse` are embedded as
`JSValue`, with numbers represented exactly as rationals (the float
rounding of very small literals is not modelled; none of the properties
below depends on it).  JS truthiness and property access are embedded
directly.
-/

namespace TrashTrack

/-- A JavaScript value as produced by `JSON.parse`, plus `undefined`
(the result of accessing a missing property). -/
inductive JSValue where
  | undefined : JSValue
  | null : JSValue
  | bool (b : Bool) : JSValue
  | num (q : Rat) : JSValue
  | str (s : String) : JSValue
  | arr (elems : List JSValue) : JSValue
  | obj (fields : List (String × JSValue)) : JSValue

/-- JS truthiness of a value.  `undefined`, `null`, `false`, `0` and the
empty string are falsy; every object and array is truthy. -/
def JSValue.truthy : JSValue → Bool
  | .undefined => false
  | .null => false
  | .bool b => b
  | .num q => q ≠ 0
  | .str s => s ≠ ""
  | .arr _ => true
  | .obj _ => true

/-- JS property access `v.k`.  On an object, the last binding of the key
wins (as `JSON.parse` keeps the last duplicate key); on any other value
the access yields `undefined`.  (Access on `null` actually throws in JS,
but in `handleVerify` the throw is caught by the same handler that the
falsy-field branch runs, producing the identical state, so `undefined`
is an exact model of the resulting state.) -/
def JSValue.get : JSValue → String → JSValue
  | .obj fields, k =>
      fields.foldl (fun acc kv => if kv.1 = k then kv.2 else acc) .undefined
  | _, _ => .undefined

/-! ### A model of `JSON.parse`

A standard strict JSON parser (RFC 8259 grammar): whitespace, objects,
arrays, strings with escapes, numbers with optional fraction and
exponent, `true`/`false`/`null`; trailing content rejects the input.
Recursion over nested values is fuelled; one unit of fuel is spent per
value or member, and every such step consumes input, so fuel equal to
the input length plus one is always sufficient. -/

/-- Skip JSON insignificant whitespace. -/
def skipWs : List Char → List Char
  | c :: cs =>
      if c = ' ' ∨ c = '\t' ∨ c = '\n' ∨ c = '\r' then skipWs cs else c :: cs
  | [] => []

/-- Value of one hex digit, if it is one. -/
def hexVal (c : Char) : Option Nat :=
  if '0' ≤ c ∧ c ≤ '9' then some (c.toNat - '0'.toNat)
  else if 'a' ≤ c ∧ c ≤ 'f' then some (c.toNat - 'a'.toNat + 10)
  else if 'A' ≤ c ∧ c ≤ 'F' then some (c.toNat - 'A'.toNat + 10)
  else none

/-- Parse the remainder of a JSON string (the opening quote already
consumed), accumulator-passing.  Returns the string and the rest. -/
def parseStrAux : List Char → List Char → Option (String × List Char)
  | _, [] => none
  | acc, '"' :: cs => some (String.mk acc.reverse, cs)
  | acc, '\\' :: '"' :: cs => parseStrAux ('"' :: acc) cs
  | acc, '\\' :: '\\' :: cs => parseStrAux ('\\' :: acc) cs
  | acc, '\\' :: '/' :: cs => parseStrAux ('/' :: acc) cs
  | acc, '\\' :: 'b' :: cs => parseStrAux ('\x08' :: acc) cs
  | acc, '\\' :: 'f' :: cs => parseStrAux ('\x0c' :: acc) cs
  | acc, '\\' :: 'n' :: cs => parseStrAux ('\n' :: acc) cs
  | acc, '\\' :: 'r' :: cs => parseStrAux ('\r' :: acc) cs
  | acc, '\\' :: 't' :: cs => parseStrAux ('\t' :: acc) cs
  | acc, '\\' :: 'u' :: h1 :: h2 :: h3 :: h4 :: cs =>
      match hexVal h1, hexVal h2, hexVal h3, hexVal h4 with
      | some a, some b, some c, some d =>
          parseStrAux (Char.ofNat (((a * 16 + b) * 16 + c) * 16 + d) :: acc) cs
      | _, _, _, _ => none
  | _, '\\' :: _ => none
  | acc, c :: cs =>
      if c.toNat < 32 then none else parseStrAux (c :: acc) cs

/-- Take a maximal run of decimal digits, accumulator-passing. -/
def digitsAux : List Char → List Char → List Char × List Char
  | acc, c :: cs =>
      if c.isDigit then digitsAux (c :: acc) cs else (acc.reverse, c :: cs)
  | acc, [] => (acc.reverse, [])

/-- Decimal digits to a natural number. -/
def digitsToNat (ds : List Char) : Nat :=
  ds.foldl (fun n c => n * 10 + (c.toNat - '0'.toNat)) 0

/-- Parse the exponent tail of a JSON number (after `e` or `E`). -/
def parseExpTail (cs : List Char) : Option (Int × List Char) :=
  let (sgn, cs1) : Int × List Char :=
    match cs with
    | '+' :: r => (1, r)
    | '-' :: r => (-1, r)
    | _ => (1, cs)
  let (ds, cs2) := digitsAux [] cs1
  if ds.isEmpty then none else some (sgn * (digitsToNat ds : Int), cs2)

/-- Parse a JSON number at the head of the input (grammar
`-? (0 | [1-9][0-9]*) (. [0-9]+)? ([eE][+-]?[0-9]+)?`), exactly as a
rational. -/
def parseNumber (cs : List Char) : Option (Rat × List Char) :=
  let (neg, cs1) :=
    match cs with
    | '-' :: r => (true, r)
    | _ => (false, cs)
  let (ids, cs2) := digitsAux [] cs1
  if ids.isEmpty then none
  else if 1 < ids.length ∧ ids.headD ' ' = '0' then none
  else
    let fracRes : Option (List Char × List Char) :=
      match cs2 with
      | '.' :: rest =>
          let (fds, r) := digitsAux [] rest
          if fds.isEmpty then none else some (fds, r)
      | _ => some ([], cs2)
    match fracRes with
    | none => none
    | some (fds, cs3) =>
      let expRes : Option (Int × List Char) :=
        match cs3 with
        | 'e' :: rest => parseExpTail rest
        | 'E' :: rest => parseExpTail rest
        | _ => some (0, cs3)
      match expRes with
      | none => none
      | some (ex, cs4) =>
        let mag : Int := (digitsToNat ids * 10 ^ fds.length + digitsToNat fds : Nat)
        let mantissa : Int := if neg then -mag else mag
        let scale : Int := ex - (fds.length : Int)
        let q : Rat :=
          if 0 ≤ scale then ((mantissa * 10 ^ scale.toNat : Int) : Rat)
          else (mantissa : Rat) / ((10 : Rat) ^ (-scale).toNat)
        some (q, cs4)

mutual

/-- Parse one JSON value at the head of the input. -/
def parseValue : Nat → List Char → Option (JSValue × List Char)
  | 0, _ => none
  | fuel + 1, cs =>
    match skipWs cs with
    | 't' :: 'r' :: 'u' :: 'e' :: rest => some (.bool true, rest)
    | 'f' :: 'a' :: 'l' :: 's' :: 'e' :: rest => some (.bool false, rest)
    | 'n' :: 'u' :: 'l' :: 'l' :: rest => some (.null, rest)
    | '"' :: rest => (parseStrAux [] rest).map (fun p => (.str p.1, p.2))
    | '{' :: rest =>
      match skipWs rest with
      | '}' :: rest2 => some (.obj [], rest2)
      | rest2 => (parseMembers fuel rest2).map (fun p => (.obj p.1, p.2))
    | '[' :: rest =>
      match skipWs rest with
      | ']' :: rest2 => some (.arr [], rest2)
      | rest2 => (parseElements fuel rest2).map (fun p => (.arr p.1, p.2))
    | c :: rest =>
      if c = '-' ∨ c.isDigit then
        (parseNumber (c :: rest)).map (fun p => (.num p.1, p.2))
      else none
    | [] => none

/-- Parse the members of an object (first `"` not yet consumed), up to
and including the closing brace. -/
def parseMembers : Nat → List Char → Option (List (String × JSValue) × List Char)
  | 0, _ => none
  | fuel + 1, cs =>
    match skipWs cs with
    | '"' :: rest =>
      match parseStrAux [] rest with
      | none => none
      | some (key, rest2) =>
        match skipWs rest2 with
        | ':' :: rest3 =>
          match parseValue fuel rest3 with
          | none => none
          | some (v, rest4) =>
            match skipWs rest4 with
            | ',' :: rest5 =>
                (parseMembers fuel rest5).map (fun p => ((key, v) :: p.1, p.2))
            | '}' :: rest5 => some ([(key, v)], rest5)
            | _ => none
        | _ => none
    | _ => none

/-- Parse the elements of an array, up to and including the closing
bracket. -/
def parseElements : Nat → List Char → Option (List JSValue × List Char)
  | 0, _ => none
  | fuel + 1, cs =>
    match parseValue fuel cs with
    | none => none
    | some (v, rest) =>
      match skipWs rest with
      | ',' :: rest2 => (parseElements fuel rest2).map (fun p => (v :: p.1, p.2))
      | ']' :: rest2 => some ([v], rest2)
      | _ => none

end

/-- The model of `JSON.parse`: parse one value and reject trailing
non-whitespace content.  Returns `none` exactly when `JSON.parse`
throws. -/
def parseJson (s : String) : Option JSValue :=
  match parseValue (s.length + 1) s.data with
  | some (v, rest) => if skipWs rest = [] then some v else none
  | none => none

/-! ### Page state (the `useState` cells of `ReportPage`) -/

/-- A user record as returned by the user store. -/
structure User where
  id : Int
  email : String
  name : String
deriving DecidableEq, Repr

/-- A `Date` value, represented by its ISO 8601 rendering
(`toISOString`). -/
structure JSDate where
  iso : String
deriving DecidableEq, Repr

/-- A report row as returned by the report store (`createReport`,
`getRecentReports`): `createdAt` is a `Date`. -/
structure DBReport where
  id : Int
  location : String
  wasteType : String
  amount : String
  createdAt : JSDate
deriving DecidableEq, Repr

/-- A report as held in the page's `reports` cell: `createdAt` already
formatted to a calendar-day string. -/
structure Report where
  id : Int
  location : String
  wasteType : String
  amount : String
  createdAt : String
deriving DecidableEq, Repr

/-- A selected file (`File`): only the metadata the handlers consult.
Its contents reach the page only through the `FileReader` data URL,
which the transitions receive as an external outcome. -/
structure JSFile where
  name : String
  mime : String
deriving DecidableEq, Repr

/-- The `newReport` cell.  The fields are dynamic values: the success
branch of `handleVerify` assigns whatever `JSON.parse` produced for
`wasteType` and `quantity`, with no conversion. -/
structure Draft where
  location : JSValue
  type : JSValue
  amount : JSValue

/-- The `verificationStatus` cell. -/
inductive VerificationStatus where
  | idle
  | verifying
  | success
  | failure
deriving DecidableEq, Repr

/-- All `useState` cells of `ReportPage` that the handlers read or
write. -/
structure PageState where
  user : Option User
  reports : List Report
  newReport : Draft
  file : Option JSFile
  preview : Option String
  verificationStatus : VerificationStatus
  verificationResult : Option JSValue
  isSubmitting : Bool

/-- The initial values of the cells, from the `useState` initializers. -/
def initialDraft : Draft := { location := .str "", type := .str "", amount := .str "" }

/-- The page state right after mount, before any effect ran. -/
def initialPageState : PageState :=
  { user := none
    reports := []
    newReport := initialDraft
    file := none
    preview := none
    verificationStatus := .idle
    verificationResult := none
    isSubmitting := false }

/-- `createdAt.toISOString().split("T")[0]`: the calendar-day part of an
ISO timestamp. -/
def formatDay (d : JSDate) : String := (d.iso.splitOn "T").headD ""

/-- Formatting applied to a store row before it enters the `reports`
cell (used both by `handleSubmit` and by `checkUser`). -/
def formatReport (r : DBReport) : Report :=
  { id := r.id
    location := r.location
    wasteType := r.wasteType
    amount := r.amount
    createdAt := formatDay r.createdAt }

/-! ### handleFileChange (page.tsx lines 92-102) -/

/-- `handleFileChange`: `files` is `e.target.files` (`none` models a
null `FileList`), `readAsDataURL` is the `FileReader` outcome for the
selected file.  The handler acts only when the list is non-empty
(`e.target.files && e.target.files[0]`; a `File` object is always
truthy): it stores the file and the reader's data URL as the preview. -/
def handleFileChange (s : PageState) (files : Option (List JSFile))
    (readAsDataURL : JSFile → String) : PageState :=
  match files with
  | some (f :: _) => { s with file := some f, preview := some (readAsDataURL f) }
  | _ => s

/-! ### handleVerify (page.tsx lines 113-175) -/

/-- Outcome of the external part of a verification attempt: `err` when
reading the file or the model call throws, `ok text` when the model
returned `text` (`response.text()`). -/
inductive AIOutcome where
  | err
  | ok (text : String)

/-- The validity test of page.tsx lines 151-155: all three fields of the
parsed result are truthy.  Pure truthiness, no type or range check. -/
def verificationFieldsValid (v : JSValue) : Bool :=
  (v.get "wasteType").truthy && (v.get "quantity").truthy && (v.get "confidence").truthy

/-- The first action of a verification attempt:
`setVerificationStatus("verifying")` (line 116), before any await. -/
def handleVerifyStart (s : PageState) : PageState :=
  { s with verificationStatus := .verifying }

/-- The rest of a verification attempt, after the model round trip
settled: parse the text, validate the three fields, and either store
the parsed result, mark success and copy `wasteType` and `quantity`
into the draft, or mark failure (lines 145-174).  Both catch handlers
and the invalid-result branch only set the status. -/
def handleVerifySettle (s : PageState) (ai : AIOutcome) : PageState :=
  match ai with
  | .err => { s with verificationStatus := .failure }
  | .ok text =>
    match parseJson text with
    | none => { s with verificationStatus := .failure }
    | some v =>
      if verificationFieldsValid v then
        { s with
            verificationResult := some v
            verificationStatus := .success
            newReport := { s.newReport with
                            type := v.get "wasteType"
                            amount := v.get "quantity" } }
      else
        { s with verificationStatus := .failure }

/-- `handleVerify` as a whole: a no-op without a selected file
(line 114), otherwise enter `verifying` and settle on the external
outcome. -/
def handleVerify (s : PageState) (ai : AIOutcome) : PageState :=
  match s.file with
  | none => s
  | some _ => handleVerifySettle (handleVerifyStart s) ai

/-! ### handleSubmit (page.tsx lines 177-219) -/

/-- The arguments `handleSubmit` passes to `createReport`
(lines 186-193).  `imageUrl` is `preview || undefined`; `verification`
is the stored result when it is truthy, else `undefined` (the
`JSON.stringify` serialization of that value is external and elided). -/
structure CreateReportArgs where
  userId : Int
  location : JSValue
  type : JSValue
  amount : JSValue
  imageUrl : Option String
  verification : Option JSValue

/-- Outcome of the `createReport` store call: it throws, or returns a
row. -/
inductive StoreOutcome where
  | err
  | ok (r : DBReport)

/-- The toasts `handleSubmit` can show. -/
inductive Toast where
  | errorVerifyOrLogin
  | successSubmitted
  | errorSubmitFailed
deriving DecidableEq, Repr

/-- Result of one `handleSubmit` invocation: the next page state, how
many `createReport` calls were made (the handler makes at most one and
never retries), the arguments of that call, and the toast shown. -/
structure SubmitResult where
  state : PageState
  storeCalls : Nat
  storeArgs : Option CreateReportArgs
  toast : Toast

/-- `handleSubmit`: rejects with a notice and no store call unless
`verificationStatus === "success"` and a user is resolved
(lines 179-182); otherwise calls `createReport` once and, on success,
prepends the day-formatted row to `reports` and resets draft, file,
preview, status and result to their initial values (lines 195-208); on a
store throw it only shows the generic error toast (lines 213-215).
`isSubmitting` is set in a `finally`, so it ends `false` whenever the
call was attempted. -/
def handleSubmit (s : PageState) (store : StoreOutcome) : SubmitResult :=
  match s.user with
  | none => { state := s, storeCalls := 0, storeArgs := none, toast := .errorVerifyOrLogin }
  | some u =>
    if s.verificationStatus ≠ .success then
      { state := s, storeCalls := 0, storeArgs := none, toast := .errorVerifyOrLogin }
    else
      let args : CreateReportArgs :=
        { userId := u.id
          location := s.newReport.location
          type := s.newReport.type
          amount := s.newReport.amount
          imageUrl :=
            match s.preview with
            | some p => if p ≠ "" then some p else none
            | none => none
          verification :=
            match s.verificationResult with
            | some v => if v.truthy then some v else none
            | none => none }
      match store with
      | .ok r =>
        { state := { s with
                      reports := formatReport r :: s.reports
                      newReport := { location := .str "", type := .str "", amount := .str "" }
                      file := none
                      preview := none
                      verificationStatus := .idle
                      verificationResult := none
                      isSubmitting := false }
          storeCalls := 1
          storeArgs := some args
          toast := .successSubmitted }
      | .err =>
        { state := { s with isSubmitting := false }
          storeCalls := 1
          storeArgs := some args
          toast := .errorSubmitFailed }

/-! ### checkUser (page.tsx lines 221-242, the mount effect) -/

/-- The external collaborators of the mount effect: the cached
`localStorage` email, the user store (`getUserByEmail` result and the
user `createUser` would return), and the report store page. -/
structure BootstrapEnv where
  cachedEmail : Option String
  userByEmail : String → Option User
  createdUser : String → String → User
  recentReports : List DBReport

/-- Result of the mount effect: the next page state, the number of
calls to each store function, and the route pushed, if any. -/
structure BootstrapResult where
  state : PageState
  getUserCalls : Nat
  createUserCalls : Nat
  getReportsCalls : Nat
  redirect : Option String

/-- `checkUser`: with a (truthy, hence non-empty) cached email, look the
user up, create one named `"Anonymous User"` if absent, store the user,
then fetch and day-format the recent reports; with no cached email
(`localStorage` returned null, or the falsy empty string), push
`"/login"` and call no store. -/
def checkUser (env : BootstrapEnv) (s : PageState) : BootstrapResult :=
  match env.cachedEmail with
  | some email =>
    if email ≠ "" then
      match env.userByEmail email with
      | some u =>
        { state := { s with
                      user := some u
                      reports := env.recentReports.map formatReport }
          getUserCalls := 1
          createUserCalls := 0
          getReportsCalls := 1
          redirect := none }
      | none =>
        { state := { s with
                      user := some (env.createdUser email "Anonymous User")
                      reports := env.recentReports.map formatReport }
          getUserCalls := 1
          createUserCalls := 1
          getReportsCalls := 1
          redirect := none }
    else
      { state := s, getUserCalls := 0, createUserCalls := 0
        getReportsCalls := 0, redirect := some "/login" }
  | none =>
      { state := s, getUserCalls := 0, createUserCalls := 0
        getReportsCalls := 0, redirect := some "/login" }

/-! ### Concrete sample values used to instantiate the theorems -/

/-- A sample selected image file. -/
def sampleFile : JSFile := { name := "waste.png", mime := "image/png" }

/-- A sample resolved user. -/
def sampleUser : User := { id := 7, email := "ada@example.org", name := "Ada" }

/-- The parsed form of the spec's happy-path AI response. -/
def goodResult : JSValue :=
  .obj [("wasteType", .str "plastic"), ("quantity", .str "2kg"), ("confidence", .num (87 / 100))]

/-- The spec's happy-path AI response text,
`'{"wasteType":"plastic","quantity":"2kg","confidence":0.87}'`
(braces written with escapes). -/
def goodJsonText : String :=
  "\x7b\"wasteType\":\"plastic\",\"quantity\":\"2kg\",\"confidence\":0.87\x7d"

/-- The spec's missing-fields AI response text,
`'{"wasteType":"plastic"}'`. -/
def missingFieldText : String := "\x7b\"wasteType\":\"plastic\"\x7d"

/-- An AI response whose confidence is exactly 0. -/
def zeroConfText : String :=
  "\x7b\"wasteType\":\"plastic\",\"quantity\":\"2kg\",\"confidence\":0\x7d"

/-- The parsed form of `zeroConfText`. -/
def zeroConfResult : JSValue :=
  .obj [("wasteType", .str "plastic"), ("quantity", .str "2kg"), ("confidence", .num 0)]

/-- An AI response with a numeric quantity and an out-of-range
confidence: every field is truthy, none is range- or type-checked. -/
def weirdText : String :=
  "\x7b\"wasteType\":\"plastic\",\"quantity\":17,\"confidence\":5\x7d"

/-- The parsed form of `weirdText`. -/
def weirdResult : JSValue :=
  .obj [("wasteType", .str "plastic"), ("quantity", .num 17), ("confidence", .num 5)]

/-- A page state right after a successful verification, with a resolved
user and a selected file: the state from which submission is meant to
happen. -/
def readyState : PageState :=
  { user := some sampleUser
    reports := []
    newReport := { location := .str "MG Road", type := .str "plastic", amount := .str "2kg" }
    file := some sampleFile
    preview := some "data:image/png;base64,AAAA"
    verificationStatus := .success
    verificationResult := some goodResult
    isSubmitting := false }

/-- A sample row returned by `createReport`. -/
def sampleRow : DBReport :=
  { id := 42
    location := "MG Road"
    wasteType := "plastic"
    amount := "2kg"
    createdAt := { iso := "2026-10-11T08:30:00.000Z" } }

/-- A bootstrap environment with no cached email. -/
def bootNoEmail : BootstrapEnv :=
  { cachedEmail := none
    userByEmail := fun _ => none
    createdUser := fun e n => { id := 1, email := e, name := n }
    recentReports := [] }

/-- A bootstrap environment with a cached email that has no user record
yet. -/
def bootFreshEmail : BootstrapEnv :=
  { cachedEmail := some "new@example.org"
    userByEmail := fun _ => none
    createdUser := fun e n => { id := 1, email := e, name := n }
    recentReports := [] }

/-! ### Helper lemmas -/

/-- The validity test accepts exactly when the three fields are truthy. -/
theorem verificationFieldsValid_iff (v : JSValue) :
    verificationFieldsValid v = true ↔
      ((v.get "wasteType").truthy = true ∧ (v.get "quantity").truthy = true ∧
        (v.get "confidence").truthy = true) := by
  simp [verificationFieldsValid, Bool.and_eq_true, and_assoc]

/-! ### Claim theorems -/

/-- C1: `handleSubmit` calls the external `createReport` store if and
only if the verification state is exactly `success` and a resolved user
session exists; whenever the state is `idle`, `verifying` or `failure`,
or no user is resolved, it shows the "please verify / log in" notice,
performs no store call, and leaves the page state untouched. -/
theorem handleSubmit_store_iff_verified (s : PageState) (store : StoreOutcome) :
    ((handleSubmit s store).storeCalls ≠ 0 ↔
      (s.verificationStatus = .success ∧ s.user.isSome = true)) ∧
    (¬(s.verificationStatus = .success ∧ s.user.isSome = true) →
      (handleSubmit s store).toast = .errorVerifyOrLogin ∧
        (handleSubmit s store).storeCalls = 0 ∧
        (handleSubmit s store).state = s) := by
  cases hu : s.user with
  | none => cases store <;> simp [handleSubmit, hu]
  | some u =>
    by_cases hs : s.verificationStatus = .success <;>
      cases store <;> simp [handleSubmit, hu, hs]

/-- C1 witness: the initial state (no user, `idle`) makes no store
call; the verified sample state does. -/
theorem handleSubmit_store_iff_verified_witness :
    (handleSubmit initialPageState StoreOutcome.err).storeCalls = 0 ∧
    (handleSubmit readyState (StoreOutcome.ok sampleRow)).storeCalls ≠ 0 := by
  refine ⟨((handleSubmit_store_iff_verified initialPageState StoreOutcome.err).2 ?_).2.1,
    (handleSubmit_store_iff_verified readyState (StoreOutcome.ok sampleRow)).1.mpr ⟨rfl, rfl⟩⟩
  simp [initialPageState]

/-- C2: whenever a verification attempt fails — the AI call throws, the
text is not parseable JSON, or a required field of the parsed JSON is
missing (falsy) — `handleVerify` ends in the `failure` state and the
report draft is unchanged. -/
theorem handleVerify_failure_keeps_draft (s : PageState) (ai : AIOutcome)
    (hfile : s.file.isSome = true)
    (hfail : ai = .err ∨ ∃ t, ai = .ok t ∧
      (parseJson t = none ∨
        ∃ v, parseJson t = some v ∧ verificationFieldsValid v = false)) :
    (handleVerify s ai).verificationStatus = .failure ∧
    (handleVerify s ai).newReport = s.newReport := by
  obtain ⟨f, hf⟩ := Option.isSome_iff_exists.mp hfile
  rcases hfail with h | ⟨t, ht, h⟩
  · subst h; simp [handleVerify, hf, handleVerifyStart, handleVerifySettle]
  · subst ht
    rcases h with hp | ⟨v, hp, hv⟩
    · simp [handleVerify, hf, handleVerifyStart, handleVerifySettle, hp]
    · simp [handleVerify, hf, handleVerifyStart, handleVerifySettle, hp, hv]

/-- C2 witness: the spec's missing-fields response drives the verified
sample state to `failure` with its draft intact. -/
theorem handleVerify_failure_keeps_draft_witness :
    (handleVerify readyState (AIOutcome.ok missingFieldText)).verificationStatus = .failure ∧
    (handleVerify readyState (AIOutcome.ok missingFieldText)).newReport = readyState.newReport :=
  handleVerify_failure_keeps_draft readyState (AIOutcome.ok missingFieldText) rfl
    (Or.inr ⟨missingFieldText, rfl,
      Or.inr ⟨.obj [("wasteType", .str "plastic")], by rfl,
        by simp [verificationFieldsValid, JSValue.get, JSValue.truthy]⟩⟩)

/-- C3 counterexample: from a `success` state holding a stored result, a
new attempt that fails re-enters the machine and ends in `failure`, yet
the previous attempt's result is still stored — the stored verification
result is retained across a failed attempt, contradicting the claim that
after a new attempt begins (or fails) the previous result is no longer
retained (neither catch handler nor the invalid branch of `handleVerify`
clears `verificationResult`). -/
theorem handleVerify_failed_attempt_keeps_result :
    (handleVerify readyState AIOutcome.err).verificationStatus = .failure ∧
    (handleVerify readyState AIOutcome.err).verificationResult =
      readyState.verificationResult ∧
    readyState.verificationResult = some goodResult := by
  exact ⟨rfl, rfl, rfl⟩

/-- C3 amended: a new verify attempt from `success` or `failure`
re-enters `verifying`; a successful attempt overwrites the stored
verification result, and the post-submission reset clears it; but
beginning an attempt, and an attempt that fails in any of the three
ways — the AI call throws, the text is not parseable JSON, or a
required field of the parsed JSON is falsy — leaves the previously
stored result in place. -/
theorem handleVerify_overwrite_discipline (s : PageState)
    (hfile : s.file.isSome = true) :
    (handleVerifyStart s).verificationStatus = .verifying ∧
    (handleVerifyStart s).verificationResult = s.verificationResult ∧
    (∀ t v, parseJson t = some v → verificationFieldsValid v = true →
      (handleVerify s (.ok t)).verificationResult = some v) ∧
    (∀ ai, (ai = .err ∨ ∃ t, ai = .ok t ∧
        (parseJson t = none ∨
          ∃ v, parseJson t = some v ∧ verificationFieldsValid v = false)) →
      (handleVerify s ai).verificationResult = s.verificationResult) ∧
    (∀ r, s.verificationStatus = .success → s.user.isSome = true →
      (handleSubmit s (.ok r)).state.verificationResult = none) := by
  obtain ⟨f, hf⟩ := Option.isSome_iff_exists.mp hfile
  refine ⟨rfl, rfl, ?_, ?_, ?_⟩
  · intro t v hp hv
    simp [handleVerify, hf, handleVerifyStart, handleVerifySettle, hp, hv]
  · intro ai hfail
    rcases hfail with h | ⟨t, ht, h⟩
    · subst h; simp [handleVerify, hf, handleVerifyStart, handleVerifySettle]
    · subst ht
      rcases h with hp | ⟨v, hp, hv⟩
      · simp [handleVerify, hf, handleVerifyStart, handleVerifySettle, hp]
      · simp [handleVerify, hf, handleVerifyStart, handleVerifySettle, hp, hv]
  · intro r hs hu
    obtain ⟨u, hu'⟩ := Option.isSome_iff_exists.mp hu
    simp [handleSubmit, hu', hs]

/-- C3 witness: at the verified sample state, a new successful attempt
overwrites the stored result; a throwing attempt, an attempt whose
response is unparseable, and an attempt with a falsy required field all
retain it; and submission clears it. -/
theorem handleVerify_overwrite_discipline_witness :
    (handleVerifyStart readyState).verificationStatus = .verifying ∧
    (handleVerify readyState (.ok goodJsonText)).verificationResult = some goodResult ∧
    (handleVerify readyState .err).verificationResult = readyState.verificationResult ∧
    (handleVerify readyState (.ok "I cannot analyze this")).verificationResult =
      readyState.verificationResult ∧
    (handleVerify readyState (.ok zeroConfText)).verificationResult =
      readyState.verificationResult ∧
    (handleSubmit readyState (.ok sampleRow)).state.verificationResult = none := by
  have h := handleVerify_overwrite_discipline readyState rfl
  exact ⟨h.1, h.2.2.1 goodJsonText goodResult (by rfl)
      (by simp [goodResult, verificationFieldsValid, JSValue.get, JSValue.truthy]),
    h.2.2.2.1 .err (Or.inl rfl),
    h.2.2.2.1 (.ok "I cannot analyze this")
      (Or.inr ⟨"I cannot analyze this", rfl, Or.inl (by rfl)⟩),
    h.2.2.2.1 (.ok zeroConfText)
      (Or.inr ⟨zeroConfText, rfl, Or.inr ⟨zeroConfResult, by rfl,
        by simp [zeroConfResult, verificationFieldsValid, JSValue.get, JSValue.truthy]⟩⟩),
    h.2.2.2.2 sampleRow rfl rfl⟩

/-- C4: a parsed AI response is accepted exactly when all three of
`wasteType`, `quantity` and `confidence` are truthy; in particular a
response whose confidence is exactly 0 is rejected and the state becomes
`failure`. -/
theorem handleVerify_truthy_validation (s : PageState) (t : String) (v : JSValue)
    (hfile : s.file.isSome = true) (hp : parseJson t = some v) :
    ((handleVerify s (.ok t)).verificationStatus = .success ↔
      ((v.get "wasteType").truthy = true ∧ (v.get "quantity").truthy = true ∧
        (v.get "confidence").truthy = true)) ∧
    (v.get "confidence" = .num 0 →
      (handleVerify s (.ok t)).verificationStatus = .failure) := by
  obtain ⟨f, hf⟩ := Option.isSome_iff_exists.mp hfile
  constructor
  · constructor
    · intro hsucc
      by_cases hv : verificationFieldsValid v = true
      · exact (verificationFieldsValid_iff v).mp hv
      · rw [Bool.not_eq_true] at hv
        simp [handleVerify, hf, handleVerifyStart, handleVerifySettle, hp, hv] at hsucc
    · intro h3
      have hv := (verificationFieldsValid_iff v).mpr h3
      simp [handleVerify, hf, handleVerifyStart, handleVerifySettle, hp, hv]
  · intro hc
    have hv : verificationFieldsValid v = false := by
      simp [verificationFieldsValid, hc, JSValue.truthy]
    simp [handleVerify, hf, handleVerifyStart, handleVerifySettle, hp, hv]

/-- C4 witness: the response with confidence exactly 0 is rejected at
the verified sample state. -/
theorem handleVerify_truthy_validation_witness :
    (handleVerify readyState (AIOutcome.ok zeroConfText)).verificationStatus = .failure := by
  have h := handleVerify_truthy_validation readyState zeroConfText zeroConfResult rfl (by rfl)
  exact h.2 (by rfl)

/-- C5: after a successful submission the created report — with its
creation timestamp formatted to the calendar-day string — sits at the
head of the recent-reports list, and the draft, the selected file, the
preview, the verification status and the verification result are all
reset to their initial values. -/
theorem handleSubmit_success_resets (s : PageState) (r : DBReport)
    (hs : s.verificationStatus = .success) (hu : s.user.isSome = true) :
    (handleSubmit s (.ok r)).state.reports = formatReport r :: s.reports ∧
    (formatReport r).createdAt = (r.createdAt.iso.splitOn "T").headD "" ∧
    (handleSubmit s (.ok r)).state.newReport = initialDraft ∧
    (handleSubmit s (.ok r)).state.file = none ∧
    (handleSubmit s (.ok r)).state.preview = none ∧
    (handleSubmit s (.ok r)).state.verificationStatus = .idle ∧
    (handleSubmit s (.ok r)).state.verificationResult = none := by
  obtain ⟨u, hu'⟩ := Option.isSome_iff_exists.mp hu
  simp [handleSubmit, hu', hs, formatReport, formatDay, initialDraft]

/-- C5 witness: submitting the verified sample state with the sample
store row puts the day-formatted row at the head and resets the form. -/
theorem handleSubmit_success_resets_witness :
    (handleSubmit readyState (.ok sampleRow)).state.reports =
      formatReport sampleRow :: readyState.reports ∧
    (formatReport sampleRow).createdAt =
      (sampleRow.createdAt.iso.splitOn "T").headD "" ∧
    (handleSubmit readyState (.ok sampleRow)).state.newReport = initialDraft ∧
    (handleSubmit readyState (.ok sampleRow)).state.file = none ∧
    (handleSubmit readyState (.ok sampleRow)).state.preview = none ∧
    (handleSubmit readyState (.ok sampleRow)).state.verificationStatus = .idle ∧
    (handleSubmit readyState (.ok sampleRow)).state.verificationResult = none :=
  handleSubmit_success_resets readyState sampleRow rfl rfl

/-- C6: when the `createReport` call throws, `handleSubmit` leaves the
draft, file, preview, verification status, verification result,
recent-reports list and user untouched, shows the generic error toast,
and has made exactly one store call — no automatic retry — so the same
draft can be resubmitted. -/
theorem handleSubmit_store_error_preserves (s : PageState)
    (hs : s.verificationStatus = .success) (hu : s.user.isSome = true) :
    (handleSubmit s .err).state.newReport = s.newReport ∧
    (handleSubmit s .err).state.file = s.file ∧
    (handleSubmit s .err).state.preview = s.preview ∧
    (handleSubmit s .err).state.verificationStatus = s.verificationStatus ∧
    (handleSubmit s .err).state.verificationResult = s.verificationResult ∧
    (handleSubmit s .err).state.reports = s.reports ∧
    (handleSubmit s .err).state.user = s.user ∧
    (handleSubmit s .err).toast = .errorSubmitFailed ∧
    (handleSubmit s .err).storeCalls = 1 := by
  obtain ⟨u, hu'⟩ := Option.isSome_iff_exists.mp hu
  simp [handleSubmit, hu', hs]

/-- C6 witness: a store throw at the verified sample state preserves the
form and shows the generic error toast. -/
theorem handleSubmit_store_error_preserves_witness :
    (handleSubmit readyState .err).state.newReport = readyState.newReport ∧
    (handleSubmit readyState .err).state.file = readyState.file ∧
    (handleSubmit readyState .err).state.preview = readyState.preview ∧
    (handleSubmit readyState .err).state.verificationStatus = readyState.verificationStatus ∧
    (handleSubmit readyState .err).state.verificationResult = readyState.verificationResult ∧
    (handleSubmit readyState .err).state.reports = readyState.reports ∧
    (handleSubmit readyState .err).state.user = readyState.user ∧
    (handleSubmit readyState .err).toast = .errorSubmitFailed ∧
    (handleSubmit readyState .err).storeCalls = 1 :=
  handleSubmit_store_error_preserves readyState rfl rfl

/-- C7: on the AI response text
`'{"wasteType":"plastic","quantity":"2kg","confidence":0.87}'`,
`handleVerify` parses it, stores the parsed object as the verification
result, sets the state to `success`, and sets `draft.type` to
`"plastic"` and `draft.amount` to `"2kg"` (the location field is left
alone). -/
theorem handleVerify_success_example (s : PageState) (hfile : s.file.isSome = true) :
    (handleVerify s (.ok goodJsonText)).verificationStatus = .success ∧
    (handleVerify s (.ok goodJsonText)).verificationResult = some goodResult ∧
    (handleVerify s (.ok goodJsonText)).newReport.type = .str "plastic" ∧
    (handleVerify s (.ok goodJsonText)).newReport.amount = .str "2kg" ∧
    (handleVerify s (.ok goodJsonText)).newReport.location = s.newReport.location := by
  obtain ⟨f, hf⟩ := Option.isSome_iff_exists.mp hfile
  have hp : parseJson goodJsonText = some goodResult := by rfl
  have hv : verificationFieldsValid goodResult = true := by
    simp [goodResult, verificationFieldsValid, JSValue.get, JSValue.truthy]
  have hw : goodResult.get "wasteType" = .str "plastic" := by rfl
  have hq : goodResult.get "quantity" = .str "2kg" := by rfl
  simp [handleVerify, hf, handleVerifyStart, handleVerifySettle, hp, hv, hw, hq]

/-- C7 witness: the happy-path response succeeds at the verified sample
state and fills the draft. -/
theorem handleVerify_success_example_witness :
    (handleVerify readyState (.ok goodJsonText)).verificationStatus = .success ∧
    (handleVerify readyState (.ok goodJsonText)).verificationResult = some goodResult ∧
    (handleVerify readyState (.ok goodJsonText)).newReport.type = .str "plastic" ∧
    (handleVerify readyState (.ok goodJsonText)).newReport.amount = .str "2kg" ∧
    (handleVerify readyState (.ok goodJsonText)).newReport.location =
      readyState.newReport.location :=
  handleVerify_success_example readyState rfl

/-- C8: on mount, with no cached email the bootstrap pushes the login
route and calls none of `getUserByEmail`, `createUser` or
`getRecentReports`; with a (non-empty, hence truthy) cached email that
has no user record, a user is created with the placeholder display name
`"Anonymous User"` and stored in the page state. -/
theorem checkUser_bootstrap_behaviour (env : BootstrapEnv) (s : PageState) :
    (env.cachedEmail = none →
      (checkUser env s).redirect = some "/login" ∧
      (checkUser env s).getUserCalls = 0 ∧
      (checkUser env s).createUserCalls = 0 ∧
      (checkUser env s).getReportsCalls = 0 ∧
      (checkUser env s).state = s) ∧
    (∀ e, env.cachedEmail = some e → e ≠ "" → env.userByEmail e = none →
      (checkUser env s).createUserCalls = 1 ∧
      (checkUser env s).state.user = some (env.createdUser e "Anonymous User")) := by
  constructor
  · intro h
    simp [checkUser, h]
  · intro e he hne hl
    simp [checkUser, he, hne, hl]

/-- C8 witness: the no-email environment redirects without store calls;
the fresh-email environment stores the placeholder-named user. -/
theorem checkUser_bootstrap_behaviour_witness :
    (checkUser bootNoEmail initialPageState).redirect = some "/login" ∧
    (checkUser bootNoEmail initialPageState).getUserCalls = 0 ∧
    (checkUser bootNoEmail initialPageState).createUserCalls = 0 ∧
    (checkUser bootNoEmail initialPageState).getReportsCalls = 0 ∧
    (checkUser bootFreshEmail initialPageState).state.user =
      some (bootFreshEmail.createdUser "new@example.org" "Anonymous User") := by
  have h1 := (checkUser_bootstrap_behaviour bootNoEmail initialPageState).1 rfl
  have h2 := (checkUser_bootstrap_behaviour bootFreshEmail initialPageState).2
    "new@example.org" rfl (by decide) rfl
  exact ⟨h1.1, h1.2.1, h1.2.2.1, h1.2.2.2.1, h2.2⟩

/-- C9: the validation is truthiness only — any parsed JSON value whose
`wasteType`, `quantity` and `confidence` are truthy is accepted,
whatever their types or ranges, and `wasteType` and `quantity` are
copied into the draft as they are; no check constrains `confidence` to
a number in the unit interval. -/
theorem handleVerify_truthiness_only (s : PageState) (t : String) (v : JSValue)
    (hfile : s.file.isSome = true) (hp : parseJson t = some v)
    (h1 : (v.get "wasteType").truthy = true)
    (h2 : (v.get "quantity").truthy = true)
    (h3 : (v.get "confidence").truthy = true) :
    (handleVerify s (.ok t)).verificationStatus = .success ∧
    (handleVerify s (.ok t)).verificationResult = some v ∧
    (handleVerify s (.ok t)).newReport.type = v.get "wasteType" ∧
    (handleVerify s (.ok t)).newReport.amount = v.get "quantity" := by
  obtain ⟨f, hf⟩ := Option.isSome_iff_exists.mp hfile
  have hv : verificationFieldsValid v = true :=
    (verificationFieldsValid_iff v).mpr ⟨h1, h2, h3⟩
  simp [handleVerify, hf, handleVerifyStart, handleVerifySettle, hp, hv]

/-- C9 witness: a response with a numeric quantity and a confidence of 5
(far outside the unit interval) is accepted, and the numeric quantity is
copied into the draft. -/
theorem handleVerify_truthiness_only_witness :
    (handleVerify readyState (.ok weirdText)).verificationStatus = .success ∧
    (handleVerify readyState (.ok weirdText)).newReport.amount = JSValue.num 17 := by
  have h := handleVerify_truthiness_only readyState weirdText weirdResult rfl (by rfl)
    (by simp [weirdResult, JSValue.get, JSValue.truthy])
    (by simp [weirdResult, JSValue.get, JSValue.truthy])
    (by simp [weirdResult, JSValue.get, JSValue.truthy])
  refine ⟨h.1, ?_⟩
  rw [h.2.2.2]
  rfl

/-- C10: a change event whose file list is empty leaves the whole page
state — in particular the previously selected file and preview —
unchanged. -/
theorem handleFileChange_empty_list_noop (s : PageState) (reader : JSFile → String) :
    handleFileChange s (some []) reader = s := rfl

end TrashTrack
